import Mathlib

/-!
# Verification of the planetary-exploration simulation

Shallow embedding of the core of the repository
(`src/classes/planet.py`, `src/classes/rover.py`, `Entrega_grupo1/src/sim.py`):
the toroidal grid world (`Planet`), the rover state machine (`Rover`) and the
per-tick fleet scheduling logic (`Fleet`), together with theorems checking the
natural-language specification against this embedding.

Conventions of the embedding:
* Python `int` becomes `Int`; Python `%` on a positive modulus is the
  mathematically non-negative remainder, which is `Int.emod` (Lean's `%`).
* The numpy grid `grid[x, y]` becomes a list of columns
  `grid : List (List CellType)` indexed first by `x`, then by `y`.
* Mutation of the shared planet becomes explicit state passing: operations
  that mutate the grid return the new `Planet`.
* The pseudo-random draws (grid generation, direction choice) are modelled
  by parameters: the grid is an arbitrary concrete list, the per-step
  direction an explicit argument.
-/

namespace Exploration

/-- Cell states of the planet grid, from `CellType` in `planet.py`.
`ACCIDENT` is the hazard cell of the spec. -/
inductive CellType where
  | EMPTY
  | WATER
  | MINERAL
  | OBSTACLE
  | ACCIDENT
  deriving DecidableEq, Repr

/-- Rover behavior states, from `RoverState` in `rover.py`.
`LOST` is the Disabled state of the spec. -/
inductive RoverState where
  | EXPLORING
  | GATHERING
  | LOST
  deriving DecidableEq, Repr

/-- The four recognized cardinal direction tokens of `Rover.move`. -/
inductive Direction where
  | N
  | S
  | E
  | W
  deriving DecidableEq, Repr

/-- The planet: dimensions and the dense grid, from `Planet` in `planet.py`.
`grid` is indexed `grid[x][y]` like the numpy array `grid[x, y]`. -/
structure Planet where
  width : Nat
  height : Nat
  grid : List (List CellType)
  deriving DecidableEq, Repr

/-- `Planet.get_cell`: toroidal wrap of the coordinates by `%` (non-negative
remainder), then a grid read.  Out-of-range reads (possible only on a
malformed grid) default to `EMPTY`. -/
def Planet.get_cell (p : Planet) (pos : Int × Int) : CellType :=
  let x := (pos.1 % (p.width : Int)).toNat
  let y := (pos.2 % (p.height : Int)).toNat
  (p.grid.getD x []).getD y CellType.EMPTY

/-- `Planet.empty_cell`: wrap the coordinates; if the cell holds WATER or
MINERAL, set it to EMPTY and report `true`, else leave the grid alone and
report `false`.  Returns the report together with the (possibly) updated
planet. -/
def Planet.empty_cell (p : Planet) (pos : Int × Int) : Bool × Planet :=
  let x := (pos.1 % (p.width : Int)).toNat
  let y := (pos.2 % (p.height : Int)).toNat
  let cell := (p.grid.getD x []).getD y CellType.EMPTY
  if cell = CellType.WATER ∨ cell = CellType.MINERAL then
    (true, { p with grid := p.grid.set x ((p.grid.getD x []).set y CellType.EMPTY) })
  else
    (false, p)

/-- The probability-validation and weight-vector part of `Planet.__init__`:
given the four cell probabilities, raise `ValueError` when their sum exceeds
1.0, otherwise hand `np.random.choice` the categorical weights
`[1 - total, p_w, p_m, p_o, p_a]` (Empty first).  The random draw itself is
not modelled; the value returned on success is exactly the `p=` list the
source passes to it. -/
def Planet.init_weights (water_prob mineral_prob obstacle_prob accident_prob : ℚ) :
    Except String (List ℚ) :=
  let total_prob := water_prob + mineral_prob + obstacle_prob + accident_prob
  if total_prob > 1 then
    Except.error "Total probability cannot exceed 1.0"
  else
    Except.ok [1 - total_prob, water_prob, mineral_prob, obstacle_prob, accident_prob]

/-- The rover, from `Rover` in `rover.py`.  The Python dicts
`load = \x7b"WATER": 0, "MINERAL": 0\x7d` and `findings_locations` are
flattened into one field per resource kind. -/
structure Rover where
  id : Nat
  location : Int × Int
  state : RoverState
  load_WATER : Nat
  load_MINERAL : Nat
  findings_WATER : List (Int × Int)
  findings_MINERAL : List (Int × Int)
  deriving DecidableEq, Repr

/-- `Rover.__init__`: starting position `(width, height)` (the parameters are
named after the source, where they hold the initial x and y coordinate), state
unconditionally `EXPLORING`, zero load, empty discovery logs. -/
def Rover.init (rover_id : Nat) (width height : Int) : Rover :=
  { id := rover_id
    location := (width, height)
    state := RoverState.EXPLORING
    load_WATER := 0
    load_MINERAL := 0
    findings_WATER := []
    findings_MINERAL := [] }

/-- The `movements` dictionary of `Rover.move`. -/
def movements : Direction → Int × Int
  | Direction.N => (0, 1)
  | Direction.S => (0, -1)
  | Direction.E => (1, 0)
  | Direction.W => (-1, 0)

/-- `Rover._update_state`: re-evaluate the behavior state from the cell at
the rover's current location. -/
def Rover.update_state (r : Rover) (p : Planet) : Rover :=
  let cell := p.get_cell r.location
  if cell = CellType.WATER ∨ cell = CellType.MINERAL then
    { r with state := RoverState.GATHERING }
  else if cell = CellType.ACCIDENT then
    { r with state := RoverState.LOST }
  else
    { r with state := RoverState.EXPLORING }

/-- `Rover.move`: compute the toroidally wrapped candidate position; if it is
an OBSTACLE return `False` and change nothing, otherwise adopt the candidate
position, re-evaluate the state and return `True`.  Note the source does not
consult the rover's current state. -/
def Rover.move (r : Rover) (p : Planet) (direction : Direction) : Bool × Rover :=
  let d := movements direction
  let new_location : Int × Int :=
    ((r.location.1 + d.1) % (p.width : Int), (r.location.2 + d.2) % (p.height : Int))
  if p.get_cell new_location = CellType.OBSTACLE then
    (false, r)
  else
    (true, Rover.update_state { r with location := new_location } p)

/-- `Rover.gather`: read the current cell; on WATER increment the water load,
clear the cell and log the location (symmetrically for MINERAL); otherwise do
nothing.  Returns the updated rover and planet. -/
def Rover.gather (r : Rover) (p : Planet) : Rover × Planet :=
  let cell := p.get_cell r.location
  if cell = CellType.WATER then
    ({ r with
        load_WATER := r.load_WATER + 1
        findings_WATER := r.findings_WATER ++ [r.location] },
      (p.empty_cell r.location).2)
  else if cell = CellType.MINERAL then
    ({ r with
        load_MINERAL := r.load_MINERAL + 1
        findings_MINERAL := r.findings_MINERAL ++ [r.location] },
      (p.empty_cell r.location).2)
  else
    (r, p)

/-- State of one fleet run, from `Fleet` in `sim.py`: the shared planet, the
rover list and the run-level counters.  (`env` and the unused `quadrants`
field are not modelled.) -/
structure FleetState where
  planet : Planet
  rovers : List Rover
  lost_rovers : Nat
  water_total : Nat
  mineral_total : Nat
  deriving DecidableEq, Repr

/-- `Fleet.__init__`: zero counters; rover `i` (0-indexed) gets id `i+1` and
starting position `x = (i*W)//num_rovers + distance`, `y = (i*H)//num_rovers`. -/
def Fleet.init (p : Planet) (num_rovers : Nat) (distance : Int) : FleetState :=
  { planet := p
    rovers := (List.range num_rovers).map fun i =>
      Rover.init (i + 1) (((i * p.width) / num_rovers : Nat) + distance)
        ((i * p.height) / num_rovers : Nat)
    lost_rovers := 0
    water_total := 0
    mineral_total := 0 }

/-- The gathering branch of one `Fleet.rover_behavior` loop iteration
(`sim.py` lines 83-93): when the rover is GATHERING, record the cell before,
gather, and bump the run-level counter matching the pre-gather cell if the
cell changed.  Returns the updated rover, planet, water total and mineral
total. -/
def Fleet.gather_phase (rover : Rover) (p : Planet) (wt mt : Nat) :
    Rover × Planet × Nat × Nat :=
  if rover.state = RoverState.GATHERING then
    let cell_before := p.get_cell rover.location
    let rp := rover.gather p
    let cell_after := rp.2.get_cell rp.1.location
    if cell_before ≠ cell_after then
      if cell_before = CellType.WATER then (rp.1, rp.2, wt + 1, mt)
      else if cell_before = CellType.MINERAL then (rp.1, rp.2, wt, mt + 1)
      else (rp.1, rp.2, wt, mt)
    else (rp.1, rp.2, wt, mt)
  else (rover, p, wt, mt)

/-- One iteration of `Fleet.rover_behavior`'s `while` loop for the rover at
index `i`, with `d` the direction drawn for this step.  A rover whose state
is LOST fails the loop guard and does nothing.  Otherwise: gathering phase,
then a move, then the lost-rover count if the move disabled the rover. -/
def FleetState.step_rover (s : FleetState) (i : Nat) (d : Direction) : FleetState :=
  match s.rovers[i]? with
  | none => s
  | some rover =>
    if rover.state = RoverState.LOST then s
    else
      let g := Fleet.gather_phase rover s.planet s.water_total s.mineral_total
      let r1 := g.1
      let p1 := g.2.1
      let wt := g.2.2.1
      let mt := g.2.2.2
      let r2 := (r1.move p1 d).2
      let lost := if r2.state = RoverState.LOST then s.lost_rovers + 1 else s.lost_rovers
      { planet := p1
        rovers := s.rovers.set i r2
        lost_rovers := lost
        water_total := wt
        mineral_total := mt }

/-- One simulated time step: every rover process runs one loop iteration, in
creation order (simpy schedules the processes of equal timestamp in creation
order).  `dirs i` is the random direction drawn by rover index `i` this
tick. -/
def FleetState.tick (s : FleetState) (dirs : Nat → Direction) : FleetState :=
  (List.range s.rovers.length).foldl (fun acc i => acc.step_rover i (dirs i)) s

/-- Run `n` ticks; `dirs t i` is the direction rover `i` draws at tick `t`. -/
def FleetState.run (s : FleetState) (dirs : Nat → Nat → Direction) : Nat → FleetState
  | 0 => s
  | n + 1 => (FleetState.run s dirs n).tick (dirs n)

/-! ## Helper lemmas -/

theorem getD_set_self {α : Type} (l : List α) (i : Nat) (a d : α) :
    (l.set i a).getD i d = if i < l.length then a else d := by
  induction l generalizing i with
  | nil => simp
  | cons b t ih =>
    cases i with
    | zero => simp
    | succ j => simpa using ih j

theorem getD_grid_set_empty (grid : List (List CellType)) (x y : Nat) :
    ((grid.set x ((grid.getD x []).set y CellType.EMPTY)).getD x []).getD y
      CellType.EMPTY = CellType.EMPTY := by
  rw [getD_set_self]
  split
  · rw [getD_set_self]
    split <;> rfl
  · rfl

/-- `empty_cell` on a resource cell reports a clearing, leaves the dimensions
alone and leaves the wrapped cell EMPTY. -/
theorem empty_cell_resource (p : Planet) (pos : Int × Int)
    (h : p.get_cell pos = CellType.WATER ∨ p.get_cell pos = CellType.MINERAL) :
    (p.empty_cell pos).1 = true ∧
    ((p.empty_cell pos).2).get_cell pos = CellType.EMPTY ∧
    ((p.empty_cell pos).2).width = p.width ∧
    ((p.empty_cell pos).2).height = p.height := by
  simp only [Planet.get_cell] at h
  simp only [Planet.empty_cell, if_pos h]
  refine ⟨by trivial, ?_, by trivial, by trivial⟩
  simpa only [Planet.get_cell] using
    getD_grid_set_empty p.grid (pos.1 % (p.width : Int)).toNat (pos.2 % (p.height : Int)).toNat

/-- `empty_cell` on a non-resource cell is a no-op reporting `false`. -/
theorem empty_cell_not_resource (p : Planet) (pos : Int × Int)
    (h : ¬(p.get_cell pos = CellType.WATER ∨ p.get_cell pos = CellType.MINERAL)) :
    p.empty_cell pos = (false, p) := by
  simp only [Planet.get_cell] at h
  simp only [Planet.empty_cell, if_neg h]

/-! ## Claim theorems -/

/-- A 1×1 planet holding a single Water cell (the spec's smoke-test world). -/
def waterPlanet : Planet :=
  { width := 1, height := 1, grid := [[CellType.WATER]] }

/-- C3: `harvest` (the source's `Planet.empty_cell`) clears the wrapped cell
to Empty and reports a clearing exactly when the cell is Water or Mineral;
otherwise it is a no-op reporting nothing cleared; consequently a second
harvest of the same cell reports nothing cleared and the cell stays Empty. -/
theorem c3_harvest_clears_exactly_resources (p : Planet) (pos : Int × Int) :
    ((p.get_cell pos = CellType.WATER ∨ p.get_cell pos = CellType.MINERAL) →
      (p.empty_cell pos).1 = true ∧
      ((p.empty_cell pos).2).get_cell pos = CellType.EMPTY ∧
      ((p.empty_cell pos).2).empty_cell pos = (false, (p.empty_cell pos).2)) ∧
    (¬(p.get_cell pos = CellType.WATER ∨ p.get_cell pos = CellType.MINERAL) →
      p.empty_cell pos = (false, p)) := by
  constructor
  · intro h
    obtain ⟨h1, h2, -, -⟩ := empty_cell_resource p pos h
    refine ⟨h1, h2, empty_cell_not_resource _ _ ?_⟩
    rw [h2]
    decide
  · exact empty_cell_not_resource p pos

/-- C3 witness: harvesting the Water cell of the 1×1 world clears it, and a
second harvest is a reported no-op. -/
theorem c3_witness :
    (waterPlanet.empty_cell (0, 0)).1 = true ∧
    ((waterPlanet.empty_cell (0, 0)).2).get_cell (0, 0) = CellType.EMPTY ∧
    ((waterPlanet.empty_cell (0, 0)).2).empty_cell (0, 0) =
      (false, (waterPlanet.empty_cell (0, 0)).2) :=
  (c3_harvest_clears_exactly_resources waterPlanet (0, 0)).1 (by decide)

/-- C4: `get_cell` is total and toroidal: for all integers `x, y` (negative
included) it agrees with the access at `(x mod W, y mod H)`, and the
remainder used is the mathematically non-negative one. -/
theorem c4_get_cell_toroidal_wrap (p : Planet) (x y : Int) :
    p.get_cell (x, y) = p.get_cell (x % (p.width : Int), y % (p.height : Int)) ∧
    (0 < p.width →
      0 ≤ x % (p.width : Int) ∧ x % (p.width : Int) < (p.width : Int)) ∧
    (0 < p.height →
      0 ≤ y % (p.height : Int) ∧ y % (p.height : Int) < (p.height : Int)) := by
  refine ⟨?_, ?_, ?_⟩
  · simp only [Planet.get_cell]
    rw [Int.emod_emod_of_dvd x (dvd_refl _), Int.emod_emod_of_dvd y (dvd_refl _)]
  · intro h
    have hw : ((p.width : Int)) ≠ 0 := by exact_mod_cast Nat.pos_iff_ne_zero.mp h
    exact ⟨Int.emod_nonneg x hw, Int.emod_lt_of_pos x (by exact_mod_cast h)⟩
  · intro h
    have hh : ((p.height : Int)) ≠ 0 := by exact_mod_cast Nat.pos_iff_ne_zero.mp h
    exact ⟨Int.emod_nonneg y hh, Int.emod_lt_of_pos y (by exact_mod_cast h)⟩

/-- C4 witness: wrapping at a concrete negative coordinate on the 1×1 world. -/
theorem c4_witness :
    0 ≤ (-5 : Int) % (waterPlanet.width : Int) ∧
    (-5 : Int) % (waterPlanet.width : Int) < (waterPlanet.width : Int) :=
  (c4_get_cell_toroidal_wrap waterPlanet (-5) 7).2.1 (by decide)

/-- The candidate position `move` computes: current position plus the
direction's unit vector, toroidally wrapped. -/
def Rover.candidate (r : Rover) (p : Planet) (direction : Direction) : Int × Int :=
  ((r.location.1 + (movements direction).1) % (p.width : Int),
   (r.location.2 + (movements direction).2) % (p.height : Int))

/-- The transition rule as the spec words it: Water/Mineral → Gathering,
Hazard → Disabled, anything else → Exploring.  Stated separately from the
source's `Rover.update_state` so the two can be compared. -/
def spec_transition : CellType → RoverState
  | CellType.WATER => RoverState.GATHERING
  | CellType.MINERAL => RoverState.GATHERING
  | CellType.ACCIDENT => RoverState.LOST
  | CellType.EMPTY => RoverState.EXPLORING
  | CellType.OBSTACLE => RoverState.EXPLORING

/-- The source's `_update_state` implements exactly the spec's transition
rule, leaving every other field alone. -/
theorem update_state_eq_spec (r : Rover) (p : Planet) :
    r.update_state p = { r with state := spec_transition (p.get_cell r.location) } := by
  simp only [Rover.update_state]
  cases h : p.get_cell r.location <;> simp [h, spec_transition]

/-- `move` unfolded through `candidate`. -/
theorem move_eq (r : Rover) (p : Planet) (d : Direction) :
    r.move p d =
      if p.get_cell (r.candidate p d) = CellType.OBSTACLE then (false, r)
      else (true, Rover.update_state { r with location := r.candidate p d } p) := rfl

/-- C5: a move whose wrapped candidate cell is an Obstacle fails and changes
nothing; any other move succeeds, adopts the candidate position and
re-evaluates the state by the transition rule, leaving id, loads and logs
alone. -/
theorem c5_move_obstacle_block_and_update (r : Rover) (p : Planet) (d : Direction) :
    (p.get_cell (r.candidate p d) = CellType.OBSTACLE → r.move p d = (false, r)) ∧
    (p.get_cell (r.candidate p d) ≠ CellType.OBSTACLE →
      (r.move p d).1 = true ∧
      (r.move p d).2.location = r.candidate p d ∧
      (r.move p d).2.state = spec_transition (p.get_cell (r.candidate p d)) ∧
      (r.move p d).2.id = r.id ∧
      (r.move p d).2.load_WATER = r.load_WATER ∧
      (r.move p d).2.load_MINERAL = r.load_MINERAL ∧
      (r.move p d).2.findings_WATER = r.findings_WATER ∧
      (r.move p d).2.findings_MINERAL = r.findings_MINERAL) := by
  constructor
  · intro h
    rw [move_eq, if_pos h]
  · intro h
    rw [move_eq, if_neg h, update_state_eq_spec]
    simp

/-- A 2×1 planet whose second column is an Obstacle. -/
def obstaclePlanet : Planet :=
  { width := 2, height := 1, grid := [[CellType.EMPTY], [CellType.OBSTACLE]] }

/-- C5 witness: moving east into the Obstacle of `obstaclePlanet` fails and
returns the rover unchanged. -/
theorem c5_witness :
    (Rover.init 1 0 0).move obstaclePlanet Direction.E = (false, Rover.init 1 0 0) :=
  (c5_move_obstacle_block_and_update (Rover.init 1 0 0) obstaclePlanet Direction.E).1
    (by decide)

/-- C6: `gather` on Water bumps the water load by one, appends the current
position to the water log, clears the cell, and touches nothing else
(symmetrically for Mineral); on a non-resource cell it is the identity; and
it never changes the behavior state or the position. -/
theorem c6_gather_effects (r : Rover) (p : Planet) :
    (p.get_cell r.location = CellType.WATER →
      (r.gather p).1.load_WATER = r.load_WATER + 1 ∧
      (r.gather p).1.findings_WATER = r.findings_WATER ++ [r.location] ∧
      (r.gather p).1.load_MINERAL = r.load_MINERAL ∧
      (r.gather p).1.findings_MINERAL = r.findings_MINERAL ∧
      ((r.gather p).2).get_cell r.location = CellType.EMPTY) ∧
    (p.get_cell r.location = CellType.MINERAL →
      (r.gather p).1.load_MINERAL = r.load_MINERAL + 1 ∧
      (r.gather p).1.findings_MINERAL = r.findings_MINERAL ++ [r.location] ∧
      (r.gather p).1.load_WATER = r.load_WATER ∧
      (r.gather p).1.findings_WATER = r.findings_WATER ∧
      ((r.gather p).2).get_cell r.location = CellType.EMPTY) ∧
    (p.get_cell r.location ≠ CellType.WATER →
      p.get_cell r.location ≠ CellType.MINERAL → r.gather p = (r, p)) ∧
    (r.gather p).1.state = r.state ∧
    (r.gather p).1.location = r.location := by
  refine ⟨?_, ?_, ?_, ?_, ?_⟩
  · intro h
    have hc := (empty_cell_resource p r.location (Or.inl h)).2.1
    simp only [Rover.gather, if_pos h]
    exact ⟨trivial, trivial, trivial, trivial, hc⟩
  · intro h
    have hw : p.get_cell r.location ≠ CellType.WATER := by rw [h]; decide
    have hc := (empty_cell_resource p r.location (Or.inr h)).2.1
    simp only [Rover.gather, if_neg hw, if_pos h]
    exact ⟨trivial, trivial, trivial, trivial, hc⟩
  · intro hw hm
    simp only [Rover.gather, if_neg hw, if_neg hm]
  · simp only [Rover.gather]
    split <;> try rfl
    split <;> rfl
  · simp only [Rover.gather]
    split <;> try rfl
    split <;> rfl

/-- C6 witness: gathering the Water cell of the 1×1 world. -/
theorem c6_witness :
    ((Rover.init 1 0 0).gather waterPlanet).1.load_WATER =
      (Rover.init 1 0 0).load_WATER + 1 ∧
    ((Rover.init 1 0 0).gather waterPlanet).1.findings_WATER =
      (Rover.init 1 0 0).findings_WATER ++ [(Rover.init 1 0 0).location] ∧
    ((Rover.init 1 0 0).gather waterPlanet).1.load_MINERAL =
      (Rover.init 1 0 0).load_MINERAL ∧
    ((Rover.init 1 0 0).gather waterPlanet).1.findings_MINERAL =
      (Rover.init 1 0 0).findings_MINERAL ∧
    (((Rover.init 1 0 0).gather waterPlanet).2).get_cell
      (Rover.init 1 0 0).location = CellType.EMPTY :=
  (c6_gather_effects (Rover.init 1 0 0) waterPlanet).1 (by decide)

/-- C7: grid-world construction raises the configuration error exactly when
the four probabilities sum above 1, and otherwise hands the categorical draw
the weight vector whose Empty weight is the remaining mass `1 − total`,
unclamped. -/
theorem c7_init_probability_validation (pw pm po pa : ℚ) :
    (pw + pm + po + pa > 1 →
      Planet.init_weights pw pm po pa =
        Except.error "Total probability cannot exceed 1.0") ∧
    (pw + pm + po + pa ≤ 1 →
      Planet.init_weights pw pm po pa =
        Except.ok [1 - (pw + pm + po + pa), pw, pm, po, pa]) := by
  constructor
  · intro h
    simp only [Planet.init_weights, if_pos h]
  · intro h
    simp only [Planet.init_weights, if_neg (not_lt.mpr h)]

/-- C7 witness: a legal configuration yields the Empty-first weight vector;
the remaining mass is `1 − 15/16`. -/
theorem c7_witness :
    Planet.init_weights (1/2) (1/4) (1/8) (1/16) =
      Except.ok [1 - (1/2 + 1/4 + 1/8 + 1/16), 1/2, 1/4, 1/8, 1/16] :=
  (c7_init_probability_validation (1/2) (1/4) (1/8) (1/16)).2 (by norm_num)

/-- C1 counterexample: on the 1×1 Water world the single fleet rover is
constructed with state EXPLORING even though it stands on a Water cell, so
the transition rule is not evaluated against the starting cell. -/
theorem c1_counterexample :
    waterPlanet.get_cell (0, 0) = CellType.WATER ∧
    (Fleet.init waterPlanet 1 0).rovers = [Rover.init 1 0 0] ∧
    (Rover.init 1 0 0).state = RoverState.EXPLORING ∧
    RoverState.EXPLORING ≠ RoverState.GATHERING := by
  decide

/-- C1 amended: every Agent the Fleet Scheduler constructs starts in the
Exploring state regardless of its starting cell; `Rover.__init__` sets the
state unconditionally and never consults the grid. -/
theorem c1_amended_initial_state_exploring (p : Planet) (n : Nat) (dist : Int)
    (r : Rover) (hr : r ∈ (Fleet.init p n dist).rovers) :
    r.state = RoverState.EXPLORING := by
  simp only [Fleet.init, List.mem_map] at hr
  obtain ⟨i, -, rfl⟩ := hr
  rfl

/-- C1 witness: the rover of the 1×1 Water world starts Exploring. -/
theorem c1_witness : (Rover.init 1 0 0).state = RoverState.EXPLORING :=
  c1_amended_initial_state_exploring waterPlanet 1 0 (Rover.init 1 0 0) (by decide)

/-- A 3×1 planet with a Hazard in the middle column. -/
def c2Planet : Planet :=
  { width := 3, height := 1,
    grid := [[CellType.EMPTY], [CellType.ACCIDENT], [CellType.EMPTY]] }

/-- Helper for C2's amendment: the scheduler's per-rover step is the identity
on a fleet whose addressed rover is LOST — the `while` guard of
`rover_behavior` fails, so no move or gather is issued. -/
theorem step_rover_lost (s : FleetState) (i : Nat) (d : Direction) (r : Rover)
    (hr : s.rovers[i]? = some r) (hl : r.state = RoverState.LOST) :
    s.step_rover i d = s := by
  simp only [FleetState.step_rover, hr, hl, if_pos, reduceCtorEq]

/-- C2 counterexample: a rover that became LOST on the Hazard of `c2Planet`
is relocated and re-enabled by one further direct `move` call — `Rover.move`
is not guarded by the Disabled state. -/
theorem c2_counterexample :
    ((Rover.init 1 0 0).move c2Planet Direction.E).2.state = RoverState.LOST ∧
    (((Rover.init 1 0 0).move c2Planet Direction.E).2.move c2Planet Direction.E).2.state =
      RoverState.EXPLORING ∧
    (((Rover.init 1 0 0).move c2Planet Direction.E).2.move c2Planet Direction.E).2.location ≠
      ((Rover.init 1 0 0).move c2Planet Direction.E).2.location := by
  decide

/-- C2 amended: once an Agent is Disabled the fleet scheduler never steps it
again (its per-tick processing is the identity on the whole fleet state), and
a `gather` on the Hazard cell it stands on changes nothing; `Rover.move`
itself, however, is not guarded by the Disabled state. -/
theorem c2_amended_disabled_never_stepped :
    (∀ (s : FleetState) (i : Nat) (d : Direction) (r : Rover),
      s.rovers[i]? = some r → r.state = RoverState.LOST → s.step_rover i d = s) ∧
    (∀ (r : Rover) (p : Planet),
      p.get_cell r.location = CellType.ACCIDENT → r.gather p = (r, p)) := by
  constructor
  · exact fun s i d r hr hl => step_rover_lost s i d r hr hl
  · intro r p h
    have hw : p.get_cell r.location ≠ CellType.WATER := by rw [h]; decide
    have hm : p.get_cell r.location ≠ CellType.MINERAL := by rw [h]; decide
    simp only [Rover.gather, if_neg hw, if_neg hm]

/-- A fleet whose only rover is LOST on the Hazard cell of `c2Planet`. -/
def lostFleet : FleetState :=
  { planet := c2Planet
    rovers := [{ id := 1, location := (1, 0), state := RoverState.LOST,
                 load_WATER := 0, load_MINERAL := 0,
                 findings_WATER := [], findings_MINERAL := [] }]
    lost_rovers := 1
    water_total := 0
    mineral_total := 0 }

/-- C2 witness: stepping the LOST rover of `lostFleet` changes nothing. -/
theorem c2_witness : lostFleet.step_rover 0 Direction.E = lostFleet :=
  c2_amended_disabled_never_stepped.1 lostFleet 0 Direction.E
    { id := 1, location := (1, 0), state := RoverState.LOST,
      load_WATER := 0, load_MINERAL := 0,
      findings_WATER := [], findings_MINERAL := [] }
    (by decide) (by decide)

/-- C9 counterexample: on the 1×1 Water world the single agent starts
EXPLORING (not Gathering), and after one tick the fleet's water total is
still 0 (the first tick only moves the agent onto the same cell, making it
GATHERING; the harvest happens on the next tick). -/
theorem c9_counterexample :
    ((Fleet.init waterPlanet 1 0).rovers[0]?).map Rover.state =
      some RoverState.EXPLORING ∧
    RoverState.EXPLORING ≠ RoverState.GATHERING ∧
    ((Fleet.init waterPlanet 1 0).tick fun _ => Direction.N).water_total = 0 := by
  decide

/-- C9 amended: on the 1×1 Water world the agent starts Exploring; after one
tick (whatever direction is drawn — every move wraps back to the one cell)
the cell is still Water, `water_total = 0` and the agent is Gathering; after
exactly two ticks `water_total = 1`, the cell is Empty and the agent is back
to Exploring at (0, 0). -/
theorem c9_amended_two_ticks (d1 d2 : Direction) :
    (((Fleet.init waterPlanet 1 0).rovers[0]?).map Rover.state =
      some RoverState.EXPLORING) ∧
    (((Fleet.init waterPlanet 1 0).tick fun _ => d1).water_total = 0) ∧
    (((Fleet.init waterPlanet 1 0).tick fun _ => d1).planet.get_cell (0, 0) =
      CellType.WATER) ∧
    ((((Fleet.init waterPlanet 1 0).tick fun _ => d1).rovers[0]?).map Rover.state =
      some RoverState.GATHERING) ∧
    ((((Fleet.init waterPlanet 1 0).tick fun _ => d1).tick fun _ => d2).water_total = 1) ∧
    ((((Fleet.init waterPlanet 1 0).tick fun _ => d1).tick fun _ => d2).planet.get_cell
      (0, 0) = CellType.EMPTY) ∧
    (((((Fleet.init waterPlanet 1 0).tick fun _ => d1).tick fun _ => d2).rovers[0]?).map
      Rover.state = some RoverState.EXPLORING) ∧
    (((((Fleet.init waterPlanet 1 0).tick fun _ => d1).tick fun _ => d2).rovers[0]?).map
      Rover.location = some ((0 : Int), (0 : Int))) := by
  cases d1 <;> cases d2 <;> decide

/-- C10: each discovery log's length equals the matching load counter at all
times: both are zero at construction, `gather` keeps them synchronized, and
`move` changes neither loads nor logs. -/
theorem c10_log_length_eq_load :
    (∀ (rover_id : Nat) (x y : Int),
      (Rover.init rover_id x y).load_WATER = 0 ∧
      (Rover.init rover_id x y).findings_WATER.length = 0 ∧
      (Rover.init rover_id x y).load_MINERAL = 0 ∧
      (Rover.init rover_id x y).findings_MINERAL.length = 0) ∧
    (∀ (r : Rover) (p : Planet),
      (r.load_WATER = r.findings_WATER.length →
        (r.gather p).1.load_WATER = (r.gather p).1.findings_WATER.length) ∧
      (r.load_MINERAL = r.findings_MINERAL.length →
        (r.gather p).1.load_MINERAL = (r.gather p).1.findings_MINERAL.length)) ∧
    (∀ (r : Rover) (p : Planet) (d : Direction),
      (r.move p d).2.load_WATER = r.load_WATER ∧
      (r.move p d).2.findings_WATER = r.findings_WATER ∧
      (r.move p d).2.load_MINERAL = r.load_MINERAL ∧
      (r.move p d).2.findings_MINERAL = r.findings_MINERAL) := by
  refine ⟨fun rover_id x y => ⟨rfl, rfl, rfl, rfl⟩, ?_, ?_⟩
  · intro r p
    constructor <;> intro h <;>
      simp only [Rover.gather] <;> split <;> simp [h] <;> split <;> simp [h]
  · intro r p d
    rw [move_eq]
    split
    · exact ⟨rfl, rfl, rfl, rfl⟩
    · rw [update_state_eq_spec]
      exact ⟨rfl, rfl, rfl, rfl⟩

/-- C10 witness: gathering the Water cell of the 1×1 world keeps the water
log and water load synchronized. -/
theorem c10_witness :
    ((Rover.init 1 0 0).gather waterPlanet).1.load_WATER =
      ((Rover.init 1 0 0).gather waterPlanet).1.findings_WATER.length :=
  (c10_log_length_eq_load.2.1 (Rover.init 1 0 0) waterPlanet).1 (by decide)

/-! ## Helper lemmas for the fleet-counter invariant (C8) -/

/-- Sum of the rovers' own water load counters. -/
def waterLoadSum (rs : List Rover) : Nat :=
  (rs.map Rover.load_WATER).sum

/-- Sum of the rovers' own mineral load counters. -/
def mineralLoadSum (rs : List Rover) : Nat :=
  (rs.map Rover.load_MINERAL).sum

theorem sum_map_set {α : Type} (f : α → Nat) :
    ∀ (l : List α) (i : Nat) (a b : α), l[i]? = some a →
      ((l.set i b).map f).sum + f a = (l.map f).sum + f b := by
  intro l
  induction l with
  | nil => intro i a b h; simp at h
  | cons x t ih =>
    intro i a b h
    cases i with
    | zero =>
      simp only [List.getElem?_cons_zero, Option.some_inj] at h
      subst h
      simp only [List.set, List.map, List.sum_cons]
      omega
    | succ j =>
      simp only [List.getElem?_cons_succ] at h
      have hj := ih j a b h
      simp only [List.set, List.map, List.sum_cons]
      omega

theorem gather_location (r : Rover) (p : Planet) :
    (r.gather p).1.location = r.location := by
  simp only [Rover.gather]
  split
  · rfl
  · split <;> rfl

theorem gather_water_eq (r : Rover) (p : Planet)
    (h : p.get_cell r.location = CellType.WATER) :
    r.gather p =
      ({ r with
          load_WATER := r.load_WATER + 1
          findings_WATER := r.findings_WATER ++ [r.location] },
        (p.empty_cell r.location).2) := by
  simp only [Rover.gather, if_pos h]

theorem gather_mineral_eq (r : Rover) (p : Planet)
    (h : p.get_cell r.location = CellType.MINERAL) :
    r.gather p =
      ({ r with
          load_MINERAL := r.load_MINERAL + 1
          findings_MINERAL := r.findings_MINERAL ++ [r.location] },
        (p.empty_cell r.location).2) := by
  have hw : p.get_cell r.location ≠ CellType.WATER := by rw [h]; decide
  simp only [Rover.gather, if_neg hw, if_pos h]

theorem gather_no_op (r : Rover) (p : Planet)
    (hw : p.get_cell r.location ≠ CellType.WATER)
    (hm : p.get_cell r.location ≠ CellType.MINERAL) :
    r.gather p = (r, p) := by
  simp only [Rover.gather, if_neg hw, if_neg hm]

/-- `gather_phase` unfolded to an if-cascade over `Rover.gather`. -/
theorem gather_phase_eq (r : Rover) (p : Planet) (wt mt : Nat) :
    Fleet.gather_phase r p wt mt =
      if r.state = RoverState.GATHERING then
        if p.get_cell r.location ≠ ((r.gather p).2).get_cell ((r.gather p).1.location) then
          if p.get_cell r.location = CellType.WATER then
            ((r.gather p).1, (r.gather p).2, wt + 1, mt)
          else if p.get_cell r.location = CellType.MINERAL then
            ((r.gather p).1, (r.gather p).2, wt, mt + 1)
          else ((r.gather p).1, (r.gather p).2, wt, mt)
        else ((r.gather p).1, (r.gather p).2, wt, mt)
      else (r, p, wt, mt) := rfl

theorem gather_phase_not_gathering (r : Rover) (p : Planet) (wt mt : Nat)
    (hs : r.state ≠ RoverState.GATHERING) :
    Fleet.gather_phase r p wt mt = (r, p, wt, mt) := by
  rw [gather_phase_eq, if_neg hs]

theorem gather_phase_water (r : Rover) (p : Planet) (wt mt : Nat)
    (hs : r.state = RoverState.GATHERING)
    (hc : p.get_cell r.location = CellType.WATER) :
    Fleet.gather_phase r p wt mt = ((r.gather p).1, (r.gather p).2, wt + 1, mt) := by
  have hafter : ((r.gather p).2).get_cell ((r.gather p).1.location) = CellType.EMPTY := by
    rw [gather_location, gather_water_eq r p hc]
    exact (empty_cell_resource p r.location (Or.inl hc)).2.1
  rw [gather_phase_eq, if_pos hs, hafter, hc]
  simp

theorem gather_phase_mineral (r : Rover) (p : Planet) (wt mt : Nat)
    (hs : r.state = RoverState.GATHERING)
    (hc : p.get_cell r.location = CellType.MINERAL) :
    Fleet.gather_phase r p wt mt = ((r.gather p).1, (r.gather p).2, wt, mt + 1) := by
  have hafter : ((r.gather p).2).get_cell ((r.gather p).1.location) = CellType.EMPTY := by
    rw [gather_location, gather_mineral_eq r p hc]
    exact (empty_cell_resource p r.location (Or.inr hc)).2.1
  rw [gather_phase_eq, if_pos hs, hafter, hc]
  simp

theorem gather_phase_not_resource (r : Rover) (p : Planet) (wt mt : Nat)
    (hs : r.state = RoverState.GATHERING)
    (hw : p.get_cell r.location ≠ CellType.WATER)
    (hm : p.get_cell r.location ≠ CellType.MINERAL) :
    Fleet.gather_phase r p wt mt = (r, p, wt, mt) := by
  rw [gather_phase_eq, if_pos hs, gather_no_op r p hw hm]
  simp

/-- The counter and load deltas of one gathering phase: the fleet counter and
the rover's own load move together, by one exactly when the rover is
GATHERING on the matching resource cell. -/
theorem gather_phase_spec (r : Rover) (p : Planet) (wt mt : Nat) :
    (Fleet.gather_phase r p wt mt).2.2.1 =
      wt + (if r.state = RoverState.GATHERING ∧
              p.get_cell r.location = CellType.WATER then 1 else 0) ∧
    (Fleet.gather_phase r p wt mt).2.2.2 =
      mt + (if r.state = RoverState.GATHERING ∧
              p.get_cell r.location = CellType.MINERAL then 1 else 0) ∧
    (Fleet.gather_phase r p wt mt).1.load_WATER =
      r.load_WATER + (if r.state = RoverState.GATHERING ∧
              p.get_cell r.location = CellType.WATER then 1 else 0) ∧
    (Fleet.gather_phase r p wt mt).1.load_MINERAL =
      r.load_MINERAL + (if r.state = RoverState.GATHERING ∧
              p.get_cell r.location = CellType.MINERAL then 1 else 0) := by
  by_cases hs : r.state = RoverState.GATHERING
  · cases hc : p.get_cell r.location with
    | WATER =>
      rw [gather_phase_water r p wt mt hs hc, gather_water_eq r p hc]
      simp [hs, hc]
    | MINERAL =>
      rw [gather_phase_mineral r p wt mt hs hc, gather_mineral_eq r p hc]
      simp [hs, hc]
    | _ =>
      rw [gather_phase_not_resource r p wt mt hs (by rw [hc]; decide) (by rw [hc]; decide)]
      simp [hs, hc]
  · rw [gather_phase_not_gathering r p wt mt hs]
    simp [hs]

theorem move_preserves_loads (r : Rover) (p : Planet) (d : Direction) :
    (r.move p d).2.load_WATER = r.load_WATER ∧
    (r.move p d).2.load_MINERAL = r.load_MINERAL := by
  rw [move_eq]
  split
  · exact ⟨rfl, rfl⟩
  · rw [update_state_eq_spec]
    exact ⟨rfl, rfl⟩

theorem step_rover_none (s : FleetState) (i : Nat) (d : Direction)
    (hr : s.rovers[i]? = none) : s.step_rover i d = s := by
  simp only [FleetState.step_rover, hr]

/-- `step_rover` unfolded on a live rover. -/
theorem step_rover_some (s : FleetState) (i : Nat) (d : Direction) (rover : Rover)
    (hr : s.rovers[i]? = some rover) (hs : rover.state ≠ RoverState.LOST) :
    s.step_rover i d =
      { planet := (Fleet.gather_phase rover s.planet s.water_total s.mineral_total).2.1
        rovers := s.rovers.set i
          ((Fleet.gather_phase rover s.planet s.water_total s.mineral_total).1.move
            (Fleet.gather_phase rover s.planet s.water_total s.mineral_total).2.1 d).2
        lost_rovers :=
          if ((Fleet.gather_phase rover s.planet s.water_total s.mineral_total).1.move
                (Fleet.gather_phase rover s.planet s.water_total s.mineral_total).2.1 d).2.state =
              RoverState.LOST
          then s.lost_rovers + 1 else s.lost_rovers
        water_total := (Fleet.gather_phase rover s.planet s.water_total s.mineral_total).2.2.1
        mineral_total :=
          (Fleet.gather_phase rover s.planet s.water_total s.mineral_total).2.2.2 } := by
  simp only [FleetState.step_rover, hr, if_neg hs]

/-- C8: each fleet run-level total stays equal to the sum of the agents' own
load counters: both start at zero at fleet construction, every per-rover step
preserves the equation, and one step bumps the water (resp. mineral) total by
exactly 1 when the stepped rover gathers on a Water (resp. Mineral) cell and
by 0 otherwise. -/
theorem c8_fleet_totals_match_loads :
    (∀ (p : Planet) (n : Nat) (dist : Int),
      (Fleet.init p n dist).water_total = waterLoadSum (Fleet.init p n dist).rovers ∧
      (Fleet.init p n dist).mineral_total = mineralLoadSum (Fleet.init p n dist).rovers) ∧
    (∀ (s : FleetState) (i : Nat) (d : Direction),
      s.water_total = waterLoadSum s.rovers →
      s.mineral_total = mineralLoadSum s.rovers →
      (s.step_rover i d).water_total = waterLoadSum (s.step_rover i d).rovers ∧
      (s.step_rover i d).mineral_total = mineralLoadSum (s.step_rover i d).rovers) ∧
    (∀ (s : FleetState) (i : Nat) (d : Direction) (r : Rover),
      s.rovers[i]? = some r → r.state ≠ RoverState.LOST →
      (s.step_rover i d).water_total =
        s.water_total + (if r.state = RoverState.GATHERING ∧
            s.planet.get_cell r.location = CellType.WATER then 1 else 0) ∧
      (s.step_rover i d).mineral_total =
        s.mineral_total + (if r.state = RoverState.GATHERING ∧
            s.planet.get_cell r.location = CellType.MINERAL then 1 else 0)) := by
  refine ⟨?_, ?_, ?_⟩
  · intro p n dist
    constructor <;>
      · simp only [Fleet.init, waterLoadSum, mineralLoadSum, List.map_map]
        symm
        apply List.sum_eq_zero
        intro x hx
        simp only [List.mem_map] at hx
        obtain ⟨i, -, rfl⟩ := hx
        rfl
  · intro s i d hw hm
    cases hr : s.rovers[i]? with
    | none => rw [step_rover_none s i d hr]; exact ⟨hw, hm⟩
    | some r =>
      by_cases hl : r.state = RoverState.LOST
      · rw [step_rover_lost s i d r hr hl]; exact ⟨hw, hm⟩
      · rw [step_rover_some s i d r hr hl]
        obtain ⟨hph1, hph2, hph3, hph4⟩ :=
          gather_phase_spec r s.planet s.water_total s.mineral_total
        obtain ⟨hm1, hm2⟩ := move_preserves_loads
          (Fleet.gather_phase r s.planet s.water_total s.mineral_total).1
          (Fleet.gather_phase r s.planet s.water_total s.mineral_total).2.1 d
        constructor
        · have hsum := sum_map_set Rover.load_WATER s.rovers i r
            ((Fleet.gather_phase r s.planet s.water_total s.mineral_total).1.move
              (Fleet.gather_phase r s.planet s.water_total s.mineral_total).2.1 d).2 hr
          simp only [waterLoadSum] at hw ⊢
          omega
        · have hsum := sum_map_set Rover.load_MINERAL s.rovers i r
            ((Fleet.gather_phase r s.planet s.water_total s.mineral_total).1.move
              (Fleet.gather_phase r s.planet s.water_total s.mineral_total).2.1 d).2 hr
          simp only [mineralLoadSum] at hm ⊢
          omega
  · intro s i d r hr hl
    rw [step_rover_some s i d r hr hl]
    obtain ⟨hph1, hph2, -, -⟩ :=
      gather_phase_spec r s.planet s.water_total s.mineral_total
    exact ⟨hph1, hph2⟩

/-- C8 witness: one step of the 1×1 Water fleet keeps both totals equal to
the rovers' load sums. -/
theorem c8_witness :
    ((Fleet.init waterPlanet 1 0).step_rover 0 Direction.N).water_total =
      waterLoadSum ((Fleet.init waterPlanet 1 0).step_rover 0 Direction.N).rovers ∧
    ((Fleet.init waterPlanet 1 0).step_rover 0 Direction.N).mineral_total =
      mineralLoadSum ((Fleet.init waterPlanet 1 0).step_rover 0 Direction.N).rovers :=
  c8_fleet_totals_match_loads.2.1 (Fleet.init waterPlanet 1 0) 0 Direction.N
    (by decide) (by decide)

end Exploration
